import Mathlib

/-!
Shallow embedding of `src/gopro2gpx/gopro2gpx.py` (the GPS point builder
`BuildGPSPoints`, the `main_core` GPS branch, and the single-channel
extractors `GetCORIData` / `GetGRAVData` / `GetACCLData`), together with
theorems checking the specification's claims about them.

Numeric values (raw samples, scale divisors, timestamps in seconds) are
modelled as exact rationals; Python runtime exceptions are modelled with an
`Except` monad whose error type names the exception-raising site.
-/

namespace Gopro2gpx

/-- Equality of `Except` results is decidable when both component types have
decidable equality (needed to evaluate the translated functions on concrete
inputs with `decide`). -/
instance instDecEqExcept {ε α : Type} [DecidableEq ε] [DecidableEq α] :
    DecidableEq (Except ε α) := fun a b =>
  match a, b with
  | .error e, .error f => decidable_of_iff (e = f) (by simp)
  | .error _, .ok _ => .isFalse (by simp)
  | .ok _, .error _ => .isFalse (by simp)
  | .ok x, .ok y => decidable_of_iff (x = y) (by simp)

/-- Modelled from the spec: the `fourCC` module is not under `src/`.  The spec
documents the `GPS5` semantic layout as the 5-tuple
lat/lon/alt/speed2d/speed3d, decoded into a named tuple with that field order
(`fourCC.GPSData`; the source reads `lat`, `lon`, `alt`, `speed` from it). -/
structure GPSData where
  lat : ℚ
  lon : ℚ
  alt : ℚ
  speed : ℚ
  speed3d : ℚ
  deriving DecidableEq

/-- Field values of the named tuple in declaration order, as produced by
Python's `item._asdict().values()`. -/
def GPSData.fields (g : GPSData) : List ℚ :=
  [g.lat, g.lon, g.alt, g.speed, g.speed3d]

/-- Modelled from the spec: `fourCC.SYSTData`, the legacy device system-clock
pair; field names follow the source's accesses `SYST.seconds` and
`SYST.miliseconds`. -/
structure SYSTData where
  seconds : ℚ
  miliseconds : ℚ
  deriving DecidableEq

/-- Modelled from the spec: `fourCC.KARMAGPSData`, the legacy single-fix
(`GPRI`) layout; the spec describes a position-plus-speed record and the
source reads `lat`, `lon`, `alt`, `speed` from it. -/
structure KARMAGPSData where
  lat : ℚ
  lon : ℚ
  alt : ℚ
  speed : ℚ
  deriving DecidableEq

/-- Field values of the `GPRI` named tuple in declaration order
(`d.data._asdict().values()`). -/
def KARMAGPSData.fields (g : KARMAGPSData) : List ℚ :=
  [g.lat, g.lon, g.alt, g.speed]

/-- Modelled from the spec: `gpshelper.GPSPoint`, the emitted geodetic point:
latitude, longitude, altitude, absolute timestamp (rational seconds), speed. -/
structure GPSPoint where
  lat : ℚ
  lon : ℚ
  alt : ℚ
  time : ℚ
  speed : ℚ
  deriving DecidableEq

/-- A decoded `SCAL` payload: the (out-of-core) decoder produces either a
single scalar divisor (sensor streams, "expected to be 32767") or a vector of
per-axis divisors (GPS streams). -/
inductive ScalVal where
  | scalar (q : ℚ)
  | vec (l : List ℚ)
  deriving DecidableEq

/-- One decoded telemetry record as consumed by `BuildGPSPoints` and by the
single-channel extractors; `other` stands for every tag those consumers treat
as inert.  Sensor items (`CORI`/`GRAV`/`ACCL`) are the per-repeat tuples,
each listed in named-tuple field order. -/
inductive Rec where
  | SCAL (v : ScalVal)
  | DVNM (name : String)
  | GPSU (t : ℚ)
  | GPSF (fix : ℤ)
  | TSMP (n : ℤ)
  | GPS5 (samples : List GPSData)
  | SYST (d : SYSTData)
  | GPRI (d : KARMAGPSData)
  | CORI (items : List (List ℚ))
  | GRAV (items : List (List ℚ))
  | ACCL (items : List (List ℚ))
  | other (tag : String)
  deriving DecidableEq

/-- Python runtime errors the translated code can raise, named by site:
`listOfScalar` is `list(SCAL)` on a scalar (TypeError), `floatOfVec` is
`float(SCAL)` on a vector (TypeError), `zeroDiv` is float division by zero
(ZeroDivisionError), `makeArity` is `namedtuple._make` on the wrong number of
values (TypeError), `indexOut` is indexing past the end of a list
(IndexError), `noneTimestamp` is `None + datetime.timedelta(...)` (TypeError,
`GPSU` never set), and `datetimeAttr` is the lookup `datetime.fromtime` ++
`stamp` on the `datetime` module, which has no such attribute
(AttributeError). -/
inductive Err where
  | listOfScalar
  | floatOfVec
  | zeroDiv
  | makeArity
  | indexOut
  | noneTimestamp
  | datetimeAttr
  deriving DecidableEq

/-- Printed output of the builder as structured events: the fix-change
notice (the fix-code translation table lives in the missing `fourCC` module;
modelled from the spec, which describes the notice as printed on every
change), the two per-sample warnings, and the final stats block (device name,
the four counters, and their total). -/
inductive Out where
  | gpsfixChange (fix : ℤ)
  | warnEmpty
  | warnBadfix
  | statsBlock (device : String) (okCount badfix badfixskip empty total : ℕ)
  deriving DecidableEq

/-- The `stats` dictionary of `BuildGPSPoints`, in insertion order. -/
structure Stats where
  ok : ℕ
  badfix : ℕ
  badfixskip : ℕ
  empty : ℕ
  deriving DecidableEq

/-- The local state of `BuildGPSPoints`: one field per local variable, plus
the printed-output trace. -/
structure BState where
  points : List GPSPoint
  start_time : Option ℚ
  SCAL : ScalVal
  GPSU : Option ℚ
  SYST : SYSTData
  stats : Stats
  GPSFIX : ℤ
  TSMP : ℤ
  DVNM : String
  trace : List Out
  deriving DecidableEq

/-- The state on entry: `SCAL = fourCC.XYZData(1.0, 1.0, 1.0)` (a neutral
3-component vector), no timestamp anchor, zero `SYST`, zero stats,
`GPSFIX = 0` (no lock), `TSMP = 0`, device name "Unknown". -/
def initState : BState :=
  { points := [], start_time := none, SCAL := .vec [1, 1, 1], GPSU := none,
    SYST := ⟨0, 0⟩, stats := ⟨0, 0, 0, 0⟩, GPSFIX := 0, TSMP := 0,
    DVNM := "Unknown", trace := [] }

/-- Python `list(SCAL)`: a named tuple lists its components, a scalar raises
TypeError. -/
def ScalVal.toList : ScalVal → Except Err (List ℚ)
  | .scalar _ => .error .listOfScalar
  | .vec l => .ok l

/-- Python `[float(x) / float(y) for x, y in zip(xs, ys)]`: `zip` stops at
the shorter list, and a zero divisor raises ZeroDivisionError at its
position. -/
def pyZipDiv : List ℚ → List ℚ → Except Err (List ℚ)
  | [], _ => .ok []
  | _ :: _, [] => .ok []
  | x :: xs, y :: ys =>
    if y = 0 then .error .zeroDiv
    else
      match pyZipDiv xs ys with
      | .error e => .error e
      | .ok r => .ok (x / y :: r)

/-- `fourCC.GPSData._make`: accepts exactly five values. -/
def GPSData.make : List ℚ → Except Err GPSData
  | [a, b, c, d, e] => .ok ⟨a, b, c, d, e⟩
  | _ => .error .makeArity

/-- `fourCC.KARMAGPSData._make`: accepts exactly four values. -/
def KARMAGPSData.make : List ℚ → Except Err KARMAGPSData
  | [a, b, c, d] => .ok ⟨a, b, c, d⟩
  | _ => .error .makeArity

/-- `fourCC.SYSTData._make`: accepts exactly two values. -/
def SYSTData.make : List ℚ → Except Err SYSTData
  | [a, b] => .ok ⟨a, b⟩
  | _ => .error .makeArity

/-- One iteration of the `GPS5` sample loop (source lines 132-158): the
all-zero rejection (the chained comparison `lon == lat == alt == 0`), the
bad-fix policy, scaling by `zip` against `list(SCAL)`, rebuilding the tuple
with `GPSData._make`, and the timestamp
`GPSU + timedelta(seconds=sample_count * (1/18))`; returns the updated state
together with `sample_count`. -/
def gps5Sample (skip : Bool) (s : BState) (cnt : ℕ) (item : GPSData) :
    Except Err (BState × ℕ) :=
  if item.lon = item.lat ∧ item.lat = item.alt ∧ item.alt = 0 then
    .ok ({ s with
            stats := { s.stats with empty := s.stats.empty + 1 },
            trace := s.trace ++ [.warnEmpty] }, cnt)
  else
    let s1 := if s.GPSFIX = 0 then
        { s with stats := { s.stats with badfix := s.stats.badfix + 1 } }
      else s
    if s.GPSFIX = 0 ∧ skip then
      .ok ({ s1 with
              stats := { s1.stats with badfixskip := s1.stats.badfixskip + 1 },
              trace := s1.trace ++ [.warnBadfix] }, cnt)
    else
      match s1.SCAL.toList with
      | .error e => .error e
      | .ok scal =>
        match pyZipDiv item.fields scal with
        | .error e => .error e
        | .ok retdata =>
          match GPSData.make retdata with
          | .error e => .error e
          | .ok gpsdata =>
            match s1.GPSU with
            | none => .error .noneTimestamp
            | some t =>
              .ok ({ s1 with
                      points := s1.points ++
                        [⟨gpsdata.lat, gpsdata.lon, gpsdata.alt,
                          t + (cnt : ℚ) * (1 / 18), gpsdata.speed⟩],
                      stats := { s1.stats with ok := s1.stats.ok + 1 } },
                   cnt + 1)

/-- The `GPS5` sample loop over a record's whole repeat group. -/
def gps5Fold (skip : Bool) : BState → ℕ → List GPSData → Except Err BState
  | s, _, [] => .ok s
  | s, cnt, item :: rest =>
    match gps5Sample skip s cnt item with
    | .error e => .error e
    | .ok (s1, cnt1) => gps5Fold skip s1 cnt1 rest

/-- One iteration of the main `for d in data` loop of `BuildGPSPoints`
(source lines 106-189). -/
def step (skip : Bool) (s : BState) (r : Rec) : Except Err BState :=
  match r with
  | .SCAL v => .ok { s with SCAL := v }
  | .DVNM name => .ok { s with DVNM := name }
  | .GPSU t =>
    .ok { s with
           GPSU := some t,
           start_time := match s.start_time with | none => some t | some u => some u }
  | .GPSF f =>
    .ok { s with
           GPSFIX := f,
           trace := if f = s.GPSFIX then s.trace else s.trace ++ [.gpsfixChange f] }
  | .TSMP n => .ok { s with TSMP := if s.TSMP = 0 then n else n - s.TSMP }
  | .GPS5 samples => gps5Fold skip s 0 samples
  | .SYST d =>
    match s.SCAL.toList with
    | .error e => .error e
    | .ok scal =>
      match pyZipDiv [d.seconds, d.miliseconds] scal with
      | .error e => .error e
      | .ok dl =>
        match dl with
        | [] => .error .indexOut
        | a :: rest =>
          if a ≠ 0 then
            match rest with
            | [] => .error .indexOut
            | b :: _ =>
              if b ≠ 0 then
                match SYSTData.make dl with
                | .error e => .error e
                | .ok sy => .ok { s with SYST := sy }
              else .ok s
          else .ok s
  | .GPRI d =>
    if d.lon = d.lat ∧ d.lat = d.alt ∧ d.alt = 0 then
      .ok { s with
             stats := { s.stats with empty := s.stats.empty + 1 },
             trace := s.trace ++ [.warnEmpty] }
    else
      let s1 := if s.GPSFIX = 0 then
          { s with stats := { s.stats with badfix := s.stats.badfix + 1 } }
        else s
      if s.GPSFIX = 0 ∧ skip then
        .ok { s1 with
               stats := { s1.stats with badfixskip := s1.stats.badfixskip + 1 },
               trace := s1.trace ++ [.warnBadfix] }
      else
        match s1.SCAL.toList with
        | .error e => .error e
        | .ok scal =>
          match pyZipDiv d.fields scal with
          | .error e => .error e
          | .ok dl =>
            match KARMAGPSData.make dl with
            | .error e => .error e
            | .ok _gpsdata =>
              if s1.SYST.seconds ≠ 0 ∧ s1.SYST.miliseconds ≠ 0 then
                -- The emission calls `datetime.fromtime` ++ `stamp` as an
                -- attribute of the `datetime` module (`import datetime`),
                -- which does not exist: AttributeError.
                .error .datetimeAttr
              else .ok s1
  | .CORI _ => .ok s
  | .GRAV _ => .ok s
  | .ACCL _ => .ok s
  | .other _ => .ok s

/-- The main loop of `BuildGPSPoints`, run from a given state. -/
def runFrom (skip : Bool) : BState → List Rec → Except Err BState
  | s, [] => .ok s
  | s, r :: rest =>
    match step skip s r with
    | .error e => .error e
    | .ok s1 => runFrom skip s1 rest

/-- `BuildGPSPoints` in full: run the loop from the entry state, then print
the stats block (source lines 191-200; `Total points` sums the four counters
in dictionary insertion order). -/
def buildRun (data : List Rec) (skip : Bool) : Except Err BState :=
  match runFrom skip initState data with
  | .error e => .error e
  | .ok s =>
    .ok { s with
           trace := s.trace ++
             [.statsBlock s.DVNM s.stats.ok s.stats.badfix s.stats.badfixskip
               s.stats.empty
               (s.stats.ok + s.stats.badfix + s.stats.badfixskip + s.stats.empty)] }

/-- The value `BuildGPSPoints` returns to its caller:
`(points, start_time, DVNM)` (source line 201). -/
def BuildGPSPoints (data : List Rec) (skip : Bool) :
    Except Err (List GPSPoint × Option ℚ × String) :=
  match buildRun data skip with
  | .error e => .error e
  | .ok s => .ok (s.points, s.start_time, s.DVNM)

/-- Outcome of the GPS branch of `main_core`: either the normal zero-point
exit ("No GPS info ... Exitting", `sys.exit(0)`) or the hand-off of points,
start time and device name to the serializers. -/
inductive MainOutcome where
  | emptyResult
  | wrote (points : List GPSPoint) (start_time : Option ℚ) (device : String)
  deriving DecidableEq

/-- The GPS branch of `main_core` (source lines 252-268). -/
def main_core_gps (data : List Rec) (skip : Bool) : Except Err MainOutcome :=
  match BuildGPSPoints data skip with
  | .error e => .error e
  | .ok (points, start_time, device_name) =>
    if points = [] then .ok .emptyResult
    else .ok (.wrote points start_time device_name)

/-- Python `[x / float(SCAL) for x in item._asdict().values()]` in the
single-channel extractors: `float` of a named tuple raises TypeError, a zero
scalar raises ZeroDivisionError, and an empty tuple evaluates nothing. -/
def pyScaleItem (scal : ScalVal) : List ℚ → Except Err (List ℚ)
  | [] => .ok []
  | x :: xs =>
    match scal with
    | .vec _ => .error .floatOfVec
    | .scalar q =>
      if q = 0 then .error .zeroDiv
      else
        match pyScaleItem (.scalar q) xs with
        | .error e => .error e
        | .ok r => .ok (x / q :: r)

/-- The inner `for item in d.data` loop of the extractors: one scaled row
appended per decoded tuple. -/
def scaleItems (scal : ScalVal) : List (List ℚ) → Except Err (List (List ℚ))
  | [] => .ok []
  | item :: rest =>
    match pyScaleItem scal item with
    | .error e => .error e
    | .ok row =>
      match scaleItems scal rest with
      | .error e => .error e
      | .ok rows => .ok (row :: rows)

/-- The loop of `GetCORIData` (source lines 39-51) with the running `SCAL`
made explicit: a `SCAL` record replaces the divisor, a `CORI` record appends
one scaled row per tuple, everything else is ignored. -/
def GetCORIDataGo : ScalVal → List Rec → Except Err (List (List ℚ))
  | _, [] => .ok []
  | scal, r :: rest =>
    match r with
    | .SCAL v => GetCORIDataGo v rest
    | .CORI items =>
      match scaleItems scal items with
      | .error e => .error e
      | .ok rows =>
        match GetCORIDataGo scal rest with
        | .error e => .error e
        | .ok rem => .ok (rows ++ rem)
    | _ => GetCORIDataGo scal rest

/-- `GetCORIData` (source lines 39-51): `SCAL` starts as the scalar 1.0. -/
def GetCORIData (data : List Rec) : Except Err (List (List ℚ)) :=
  GetCORIDataGo (.scalar 1) data

/-- The loop of `GetGRAVData` (source lines 54-66). -/
def GetGRAVDataGo : ScalVal → List Rec → Except Err (List (List ℚ))
  | _, [] => .ok []
  | scal, r :: rest =>
    match r with
    | .SCAL v => GetGRAVDataGo v rest
    | .GRAV items =>
      match scaleItems scal items with
      | .error e => .error e
      | .ok rows =>
        match GetGRAVDataGo scal rest with
        | .error e => .error e
        | .ok rem => .ok (rows ++ rem)
    | _ => GetGRAVDataGo scal rest

/-- `GetGRAVData` (source lines 54-66). -/
def GetGRAVData (data : List Rec) : Except Err (List (List ℚ)) :=
  GetGRAVDataGo (.scalar 1) data

/-- The loop of `GetACCLData` (source lines 69-81). -/
def GetACCLDataGo : ScalVal → List Rec → Except Err (List (List ℚ))
  | _, [] => .ok []
  | scal, r :: rest =>
    match r with
    | .SCAL v => GetACCLDataGo v rest
    | .ACCL items =>
      match scaleItems scal items with
      | .error e => .error e
      | .ok rows =>
        match GetACCLDataGo scal rest with
        | .error e => .error e
        | .ok rem => .ok (rows ++ rem)
    | _ => GetACCLDataGo scal rest

/-- `GetACCLData` (source lines 69-81). -/
def GetACCLData (data : List Rec) : Except Err (List (List ℚ)) :=
  GetACCLDataGo (.scalar 1) data

/-! ### Reference functions and predicates used by the claim statements -/

/-- Reference description of the points appended by one `GPS5` record, with
the amended timestamp rule: the intra-record offset is the count of samples
of this record emitted so far (`sample_count`), not the sample's raw position
in the repeat group. -/
def gps5NewPoints (fix : ℤ) (skip : Bool) (T a b c d : ℚ) :
    ℕ → List GPSData → List GPSPoint
  | _, [] => []
  | cnt, item :: rest =>
    if item.lon = item.lat ∧ item.lat = item.alt ∧ item.alt = 0 then
      gps5NewPoints fix skip T a b c d cnt rest
    else if fix = 0 ∧ skip then
      gps5NewPoints fix skip T a b c d cnt rest
    else
      ⟨item.lat / a, item.lon / b, item.alt / c, T + (cnt : ℚ) * (1 / 18),
        item.speed / d⟩ :: gps5NewPoints fix skip T a b c d (cnt + 1) rest

/-- Whether a record is a legacy `TSMP` counter record. -/
def isTSMPRec : Rec → Bool
  | .TSMP _ => true
  | _ => false

/-- Whether a record can contribute points (`GPS5` or `GPRI`). -/
def isPointRec : Rec → Bool
  | .GPS5 _ => true
  | .GPRI _ => true
  | _ => false

/-- Whether a record is a `GPSU` timestamp-anchor record. -/
def isGPSURec : Rec → Bool
  | .GPSU _ => true
  | _ => false

/-- Well-formedness of the `SCAL` records a GPS stream is expected to carry:
a vector of at least two nonzero components (the legacy `SYST` handler
indexes two scaled fields).  Non-`SCAL` records satisfy it trivially. -/
def scalWF : Rec → Bool
  | .SCAL (.vec l) => decide (2 ≤ l.length) && l.all fun q => q != 0
  | .SCAL (.scalar _) => false
  | _ => true

/-- Well-formedness of the `SCAL` records a sensor stream is expected to
carry: a single nonzero scalar. -/
def scalScalarWF : Rec → Bool
  | .SCAL (.scalar q) => q != 0
  | .SCAL (.vec _) => false
  | _ => true

/-- The tuples carried by a `CORI` record, if any. -/
def coriItems : Rec → Option (List (List ℚ))
  | .CORI items => some items
  | _ => none

/-- The tuples carried by a `GRAV` record, if any. -/
def gravItems : Rec → Option (List (List ℚ))
  | .GRAV items => some items
  | _ => none

/-- The tuples carried by an `ACCL` record, if any. -/
def acclItems : Rec → Option (List (List ℚ))
  | .ACCL items => some items
  | _ => none

/-- The spec's description of single-channel extraction: one row per decoded
tuple of the requested tag, in input order, each component divided by the
most recent preceding scalar `SCAL` value (defaulting to a neutral 1.0), with
no timestamping and no fix-quality or empty-sample filtering. -/
def channelRowsSpec (sel : Rec → Option (List (List ℚ))) :
    ℚ → List Rec → List (List ℚ)
  | _, [] => []
  | scal, r :: rest =>
    match r with
    | .SCAL (.scalar q) => channelRowsSpec sel q rest
    | _ =>
      match sel r with
      | some items =>
        items.map (List.map (· / scal)) ++ channelRowsSpec sel scal rest
      | none => channelRowsSpec sel scal rest

/-- The state with the `TSMP` slot blanked, for stating that nothing except
that slot depends on `TSMP` records. -/
def stripT (s : BState) : BState := { s with TSMP := 0 }

/-- A record that would emit (or at least attempt to emit) a point in state
`s`: a `GPS5` record one of whose samples passes both the all-zero filter and
the bad-fix skip filter. -/
def recAccepts (skip : Bool) (s : BState) : Rec → Prop
  | .GPS5 items => ∃ item ∈ items,
      ¬(item.lon = item.lat ∧ item.lat = item.alt ∧ item.alt = 0) ∧
        ¬(s.GPSFIX = 0 ∧ skip)
  | _ => False

/-- Some `GPSU` record precedes the first `GPS5` record with an accepted
sample: there is an index `j` holding a `GPSU` record such that no earlier
record, in the state the run actually reaches it in, accepts a sample. -/
def anchorBeforeAccept (skip : Bool) (data : List Rec) : Prop :=
  ∃ j, ∃ hj : j < data.length, isGPSURec (data.get ⟨j, hj⟩) ∧
    ∀ i, (hi : i < j) → ∀ s, runFrom skip initState (data.take i) = .ok s →
      ¬recAccepts skip s (data.get ⟨i, Nat.lt_trans hi hj⟩)

/-! ### Lemmas about the scaling helpers -/

theorem pyZipDiv_ok (xs : List ℚ) : ∀ ys : List ℚ, (∀ y ∈ ys, y ≠ 0) →
    pyZipDiv xs ys = .ok (List.zipWith (· / ·) xs ys) := by
  induction xs with
  | nil => intro ys _; cases ys <;> rfl
  | cons x xs ih =>
    intro ys hy
    cases ys with
    | nil => rfl
    | cons y ys =>
      have hy0 : y ≠ 0 := hy y (by simp)
      simp only [pyZipDiv, if_neg hy0, ih ys fun z hz => hy z (by simp [hz]),
        List.zipWith_cons_cons]

theorem GPSData.make_of_length_ne (xs : List ℚ) (h : xs.length ≠ 5) :
    GPSData.make xs = .error .makeArity := by
  rcases xs with _ | ⟨a, _ | ⟨b, _ | ⟨c, _ | ⟨d, _ | ⟨e, _ | ⟨f, t⟩⟩⟩⟩⟩⟩ <;>
    first | rfl | simp at h

theorem pyScaleItem_ok (q : ℚ) (hq : q ≠ 0) (xs : List ℚ) :
    pyScaleItem (.scalar q) xs = .ok (xs.map (· / q)) := by
  induction xs with
  | nil => rfl
  | cons x xs ih => simp only [pyScaleItem, if_neg hq, ih, List.map_cons]

theorem scaleItems_ok (q : ℚ) (hq : q ≠ 0) (items : List (List ℚ)) :
    scaleItems (.scalar q) items = .ok (items.map (List.map (· / q))) := by
  induction items with
  | nil => rfl
  | cons item rest ih =>
    simp only [scaleItems, pyScaleItem_ok q hq, ih, List.map_cons]

/-! ### Lemmas about the `GPS5` sample loop -/

/-- An accepted sample, when the scale vector is a list with at least five
nonzero components and an anchor is set, is emitted with each field divided
by the matching component, timestamped `anchor + sample_count / 18`. -/
theorem gps5Sample_emit (skip : Bool) (s : BState) (cnt : ℕ) (item : GPSData)
    (T a b c d e : ℚ) (t : List ℚ)
    (hz : ¬(item.lon = item.lat ∧ item.lat = item.alt ∧ item.alt = 0))
    (hns : ¬(s.GPSFIX = 0 ∧ skip))
    (hU : s.GPSU = some T) (hS : s.SCAL = .vec (a :: b :: c :: d :: e :: t))
    (ha : a ≠ 0) (hb : b ≠ 0) (hc : c ≠ 0) (hd : d ≠ 0) (he : e ≠ 0) :
    gps5Sample skip s cnt item =
      .ok ({ (if s.GPSFIX = 0 then
                { s with stats := { s.stats with badfix := s.stats.badfix + 1 } }
              else s) with
              points := s.points ++
                [⟨item.lat / a, item.lon / b, item.alt / c,
                  T + (cnt : ℚ) * (1 / 18), item.speed / d⟩],
              stats := { (if s.GPSFIX = 0 then
                    { s with stats := { s.stats with badfix := s.stats.badfix + 1 } }
                  else s).stats with
                ok := (if s.GPSFIX = 0 then
                    { s with stats := { s.stats with badfix := s.stats.badfix + 1 } }
                  else s).stats.ok + 1 } }, cnt + 1) := by
  have hdiv : pyZipDiv item.fields (a :: b :: c :: d :: e :: t) =
      .ok [item.lat / a, item.lon / b, item.alt / c, item.speed / d,
        item.speed3d / e] := by
    simp only [GPSData.fields, pyZipDiv, if_neg ha, if_neg hb, if_neg hc,
      if_neg hd, if_neg he]
  by_cases hfix : s.GPSFIX = 0
  · simp only [gps5Sample, if_neg hz, if_neg hns, if_pos hfix,
      ScalVal.toList, hS, hU, hdiv, GPSData.make]
  · simp only [gps5Sample, if_neg hz, if_neg hns, if_neg hfix,
      ScalVal.toList, hS, hU, hdiv, GPSData.make]

/-- An all-zero sample is rejected as empty: the state only gains the
`empty` count and the warning line, and `sample_count` is unchanged. -/
theorem gps5Sample_empty (skip : Bool) (s : BState) (cnt : ℕ) (item : GPSData)
    (hz : item.lon = item.lat ∧ item.lat = item.alt ∧ item.alt = 0) :
    gps5Sample skip s cnt item =
      .ok ({ s with
              stats := { s.stats with empty := s.stats.empty + 1 },
              trace := s.trace ++ [.warnEmpty] }, cnt) := by
  simp only [gps5Sample, if_pos hz]

/-- A non-empty sample seen with no lock while the skip policy is on is
counted in `badfix` and `badfixskip` and dropped. -/
theorem gps5Sample_badfixskip (s : BState) (cnt : ℕ) (item : GPSData)
    (hz : ¬(item.lon = item.lat ∧ item.lat = item.alt ∧ item.alt = 0))
    (hfix : s.GPSFIX = 0) :
    gps5Sample true s cnt item =
      .ok ({ s with
              stats := { s.stats with
                          badfix := s.stats.badfix + 1,
                          badfixskip := s.stats.badfixskip + 1 },
              trace := s.trace ++ [.warnBadfix] }, cnt) := by
  simp only [gps5Sample, if_neg hz, if_pos hfix]
  simp [hfix]

/-- A scale vector with fewer components than the five tuple fields makes an
accepted sample abort with the tuple-arity error (Python `zip` silently
truncates, and `GPSData._make` then rejects the short list). -/
theorem gps5Sample_arity (skip : Bool) (s : BState) (cnt : ℕ) (item : GPSData)
    (l : List ℚ)
    (hz : ¬(item.lon = item.lat ∧ item.lat = item.alt ∧ item.alt = 0))
    (hns : ¬(s.GPSFIX = 0 ∧ skip))
    (hS : s.SCAL = .vec l) (hlen : l.length < 5) (hnz : ∀ q ∈ l, q ≠ 0) :
    gps5Sample skip s cnt item = .error .makeArity := by
  have hne : (List.zipWith (· / ·) item.fields l).length ≠ 5 := by
    rw [List.length_zipWith]
    have h5 : item.fields.length = 5 := rfl
    omega
  by_cases hfix : s.GPSFIX = 0
  · simp only [gps5Sample, if_neg hz, if_neg hns, if_pos hfix,
      ScalVal.toList, hS, pyZipDiv_ok _ _ hnz, GPSData.make_of_length_ne _ hne]
  · simp only [gps5Sample, if_neg hz, if_neg hns, if_neg hfix,
      ScalVal.toList, hS, pyZipDiv_ok _ _ hnz, GPSData.make_of_length_ne _ hne]

/-- An accepted sample processed while `GPSU` was never set aborts when the
timestamp is built (`None + timedelta`), before any point is appended. -/
theorem gps5Sample_noneTs (skip : Bool) (s : BState) (cnt : ℕ) (item : GPSData)
    (a b c d e : ℚ) (t : List ℚ)
    (hz : ¬(item.lon = item.lat ∧ item.lat = item.alt ∧ item.alt = 0))
    (hns : ¬(s.GPSFIX = 0 ∧ skip))
    (hU : s.GPSU = none) (hS : s.SCAL = .vec (a :: b :: c :: d :: e :: t))
    (ha : a ≠ 0) (hb : b ≠ 0) (hc : c ≠ 0) (hd : d ≠ 0) (he : e ≠ 0) :
    gps5Sample skip s cnt item = .error .noneTimestamp := by
  have hdiv : pyZipDiv item.fields (a :: b :: c :: d :: e :: t) =
      .ok [item.lat / a, item.lon / b, item.alt / c, item.speed / d,
        item.speed3d / e] := by
    simp only [GPSData.fields, pyZipDiv, if_neg ha, if_neg hb, if_neg hc,
      if_neg hd, if_neg he]
  by_cases hfix : s.GPSFIX = 0
  · simp only [gps5Sample, if_neg hz, if_neg hns, if_pos hfix,
      ScalVal.toList, hS, hU, hdiv, GPSData.make]
  · simp only [gps5Sample, if_neg hz, if_neg hns, if_neg hfix,
      ScalVal.toList, hS, hU, hdiv, GPSData.make]

theorem ScalVal.toList_error {v : ScalVal} {e : Err}
    (h : ScalVal.toList v = .error e) : e = .listOfScalar := by
  cases v with
  | scalar q =>
    simp only [ScalVal.toList, Except.error.injEq] at h
    exact h.symm
  | vec l => simp [ScalVal.toList] at h

theorem pyZipDiv_error : ∀ (xs ys : List ℚ) {e : Err},
    pyZipDiv xs ys = .error e → e = .zeroDiv := by
  intro xs
  induction xs with
  | nil => intro ys e h; cases ys <;> simp [pyZipDiv] at h
  | cons x xs ih =>
    intro ys e h
    cases ys with
    | nil => simp [pyZipDiv] at h
    | cons y ys =>
      by_cases hy : y = 0
      · simp only [pyZipDiv, if_pos hy] at h
        simpa using h.symm
      · simp only [pyZipDiv, if_neg hy] at h
        cases hrec : pyZipDiv xs ys with
        | error e1 =>
          rw [hrec] at h
          simp only [Except.error.injEq] at h
          exact h ▸ ih ys hrec
        | ok r => rw [hrec] at h; simp at h

theorem gpsdataMake_error {xs : List ℚ} {e : Err}
    (h : GPSData.make xs = .error e) : e = .makeArity := by
  rcases xs with _ | ⟨a, _ | ⟨b, _ | ⟨c, _ | ⟨d, _ | ⟨e1, _ | ⟨f, t⟩⟩⟩⟩⟩⟩ <;>
    simp [GPSData.make] at h <;> exact h.symm

theorem badfixAdj_SCAL (s : BState) :
    (if s.GPSFIX = 0 then
        { s with stats := { s.stats with badfix := s.stats.badfix + 1 } }
      else s).SCAL = s.SCAL := by split <;> rfl

theorem badfixAdj_GPSU (s : BState) :
    (if s.GPSFIX = 0 then
        { s with stats := { s.stats with badfix := s.stats.badfix + 1 } }
      else s).GPSU = s.GPSU := by split <;> rfl

/-- Classification of the errors one `GPS5` sample iteration can raise: the
missing-anchor error occurs exactly on a sample that passed both filters
while `GPSU` was still unset; every other error is a scale-shape error. -/
theorem gps5Sample_error_cases {skip : Bool} {s : BState} {cnt : ℕ}
    {item : GPSData} {e : Err}
    (h : gps5Sample skip s cnt item = .error e) :
    (e = .noneTimestamp ∧ s.GPSU = none ∧
      ¬(item.lon = item.lat ∧ item.lat = item.alt ∧ item.alt = 0) ∧
      ¬(s.GPSFIX = 0 ∧ skip)) ∨
    e = .listOfScalar ∨ e = .zeroDiv ∨ e = .makeArity := by
  by_cases hz : item.lon = item.lat ∧ item.lat = item.alt ∧ item.alt = 0
  · rw [gps5Sample_empty skip s cnt item hz] at h
    exact absurd h (by simp)
  · by_cases hns : s.GPSFIX = 0 ∧ skip
    · obtain ⟨hfix, hsk⟩ := hns
      subst hsk
      rw [gps5Sample_badfixskip s cnt item hz hfix] at h
      exact absurd h (by simp)
    · simp only [gps5Sample, if_neg hz, if_neg hns, badfixAdj_SCAL,
        badfixAdj_GPSU] at h
      cases hS : s.SCAL with
      | scalar q =>
        simp only [hS, ScalVal.toList, Except.error.injEq] at h
        exact Or.inr (Or.inl h.symm)
      | vec l =>
        simp only [hS, ScalVal.toList] at h
        cases hd : pyZipDiv item.fields l with
        | error e1 =>
          simp only [hd, Except.error.injEq] at h
          exact Or.inr (Or.inr (Or.inl (h ▸ pyZipDiv_error _ _ hd)))
        | ok retdata =>
          simp only [hd] at h
          cases hm : GPSData.make retdata with
          | error e2 =>
            simp only [hm, Except.error.injEq] at h
            exact Or.inr (Or.inr (Or.inr (h ▸ gpsdataMake_error hm)))
          | ok g =>
            simp only [hm] at h
            cases hU : s.GPSU with
            | none =>
              simp only [hU, Except.error.injEq] at h
              exact Or.inl ⟨h.symm, rfl, hz, hns⟩
            | some u =>
              simp only [hU] at h
              exact absurd h (by simp)

/-- A successful `GPS5` sample iteration changes only the points, the stats
and the trace: the anchor, fix code, scale vector, `SYST`, `TSMP`, device,
and session start are preserved. -/
theorem gps5Sample_ok_inv {skip : Bool} {s : BState} {cnt : ℕ}
    {item : GPSData} {s1 : BState} {cnt1 : ℕ}
    (h : gps5Sample skip s cnt item = .ok (s1, cnt1)) :
    s1.GPSU = s.GPSU ∧ s1.GPSFIX = s.GPSFIX ∧ s1.SCAL = s.SCAL ∧
      s1.SYST = s.SYST ∧ s1.TSMP = s.TSMP ∧ s1.DVNM = s.DVNM ∧
      s1.start_time = s.start_time := by
  by_cases hz : item.lon = item.lat ∧ item.lat = item.alt ∧ item.alt = 0
  · rw [gps5Sample_empty skip s cnt item hz] at h
    simp only [Except.ok.injEq, Prod.mk.injEq] at h
    obtain ⟨h1, -⟩ := h
    subst h1
    exact ⟨rfl, rfl, rfl, rfl, rfl, rfl, rfl⟩
  · by_cases hns : s.GPSFIX = 0 ∧ skip
    · obtain ⟨hfix, hsk⟩ := hns
      subst hsk
      rw [gps5Sample_badfixskip s cnt item hz hfix] at h
      simp only [Except.ok.injEq, Prod.mk.injEq] at h
      obtain ⟨h1, -⟩ := h
      subst h1
      exact ⟨rfl, rfl, rfl, rfl, rfl, rfl, rfl⟩
    · simp only [gps5Sample, if_neg hz, if_neg hns, badfixAdj_SCAL,
        badfixAdj_GPSU] at h
      cases hS : s.SCAL with
      | scalar q =>
        simp only [hS, ScalVal.toList] at h
        exact absurd h (by simp)
      | vec l =>
        simp only [hS, ScalVal.toList] at h
        cases hd : pyZipDiv item.fields l with
        | error e1 => simp only [hd] at h; exact absurd h (by simp)
        | ok retdata =>
          simp only [hd] at h
          cases hm : GPSData.make retdata with
          | error e2 => simp only [hm] at h; exact absurd h (by simp)
          | ok g =>
            simp only [hm] at h
            cases hU : s.GPSU with
            | none => simp only [hU] at h; exact absurd h (by simp)
            | some u =>
              simp only [hU] at h
              simp only [Except.ok.injEq, Prod.mk.injEq] at h
              obtain ⟨h1, -⟩ := h
              subst h1
              refine ⟨?_, ?_, ?_, ?_, ?_, ?_, ?_⟩ <;>
                first | rfl | (split <;> rfl)

/-- A successful pass over a whole repeat group preserves every state slot
except the points, the stats and the trace. -/
theorem gps5Fold_ok_inv {skip : Bool} {items : List GPSData} {s : BState}
    {cnt : ℕ} {s1 : BState} (h : gps5Fold skip s cnt items = .ok s1) :
    s1.GPSU = s.GPSU ∧ s1.GPSFIX = s.GPSFIX ∧ s1.SCAL = s.SCAL ∧
      s1.SYST = s.SYST ∧ s1.TSMP = s.TSMP ∧ s1.DVNM = s.DVNM ∧
      s1.start_time = s.start_time := by
  induction items generalizing s cnt with
  | nil =>
    simp only [gps5Fold, Except.ok.injEq] at h
    subst h
    exact ⟨rfl, rfl, rfl, rfl, rfl, rfl, rfl⟩
  | cons item rest ih =>
    simp only [gps5Fold] at h
    cases hs : gps5Sample skip s cnt item with
    | error e => simp only [hs] at h; exact absurd h (by simp)
    | ok p =>
      obtain ⟨s2, cnt2⟩ := p
      simp only [hs] at h
      obtain ⟨a1, a2, a3, a4, a5, a6, a7⟩ := gps5Sample_ok_inv hs
      obtain ⟨b1, b2, b3, b4, b5, b6, b7⟩ := ih h
      exact ⟨b1.trans a1, b2.trans a2, b3.trans a3, b4.trans a4, b5.trans a5,
        b6.trans a6, b7.trans a7⟩

/-- Once the anchor is set the repeat-group loop can never raise the
missing-anchor error. -/
theorem gps5Fold_ne_noneTs {skip : Bool} {items : List GPSData} {s : BState}
    {cnt : ℕ} {u : ℚ} (hU : s.GPSU = some u) :
    gps5Fold skip s cnt items ≠ .error .noneTimestamp := by
  induction items generalizing s cnt with
  | nil => simp [gps5Fold]
  | cons item rest ih =>
    intro h
    simp only [gps5Fold] at h
    cases hs : gps5Sample skip s cnt item with
    | error e =>
      simp only [hs, Except.error.injEq] at h
      subst h
      rcases gps5Sample_error_cases hs with ⟨-, hnone, -, -⟩ | h' | h' | h'
      · rw [hU] at hnone; exact Option.noConfusion hnone
      all_goals exact Err.noConfusion h'
    | ok p =>
      obtain ⟨s2, cnt2⟩ := p
      simp only [hs] at h
      exact ih ((gps5Sample_ok_inv hs).1.trans hU) h

/-- If the repeat-group loop raises the missing-anchor error, the anchor was
unset and some sample of the group passed both rejection filters. -/
theorem gps5Fold_noneTs_inv {skip : Bool} {items : List GPSData} {s : BState}
    {cnt : ℕ} (h : gps5Fold skip s cnt items = .error .noneTimestamp) :
    s.GPSU = none ∧ ∃ item ∈ items,
      ¬(item.lon = item.lat ∧ item.lat = item.alt ∧ item.alt = 0) ∧
        ¬(s.GPSFIX = 0 ∧ skip) := by
  induction items generalizing s cnt with
  | nil => simp [gps5Fold] at h
  | cons item rest ih =>
    simp only [gps5Fold] at h
    cases hs : gps5Sample skip s cnt item with
    | error e =>
      simp only [hs, Except.error.injEq] at h
      subst h
      rcases gps5Sample_error_cases hs with ⟨-, hnone, hz, hns⟩ | h' | h' | h'
      · exact ⟨hnone, item, List.mem_cons_self item rest, hz, hns⟩
      all_goals exact Err.noConfusion h'
    | ok p =>
      obtain ⟨s2, cnt2⟩ := p
      simp only [hs] at h
      obtain ⟨hnone, item2, hmem, hz2, hns2⟩ := ih h
      obtain ⟨a1, a2, -⟩ := gps5Sample_ok_inv hs
      refine ⟨a1.symm.trans hnone, item2, List.mem_cons_of_mem _ hmem, hz2, ?_⟩
      rw [← a2]
      exact hns2

/-- The points a repeat group appends, in terms of the reference function
`gps5NewPoints`, whenever the anchor is set and the scale vector has at least
five nonzero components. -/
theorem gps5Fold_points {skip : Bool} {items : List GPSData} {s : BState}
    {cnt : ℕ} {T a b c d e : ℚ} {t : List ℚ}
    (hU : s.GPSU = some T) (hS : s.SCAL = .vec (a :: b :: c :: d :: e :: t))
    (ha : a ≠ 0) (hb : b ≠ 0) (hc : c ≠ 0) (hd : d ≠ 0) (he : e ≠ 0) :
    (gps5Fold skip s cnt items).map BState.points =
      .ok (s.points ++ gps5NewPoints s.GPSFIX skip T a b c d cnt items) := by
  induction items generalizing s cnt with
  | nil => simp [gps5Fold, gps5NewPoints, Except.map]
  | cons item rest ih =>
    by_cases hz : item.lon = item.lat ∧ item.lat = item.alt ∧ item.alt = 0
    · simp only [gps5Fold, gps5Sample_empty skip s cnt item hz,
        gps5NewPoints, if_pos hz]
      exact ih hU hS
    · by_cases hns : s.GPSFIX = 0 ∧ skip
      · obtain ⟨hfix, hsk⟩ := hns
        subst hsk
        simp only [gps5Fold, gps5Sample_badfixskip s cnt item hz hfix,
          gps5NewPoints, if_neg hz, hfix]
        exact ih hU hS
      · by_cases hfix : s.GPSFIX = 0
        · simp only [gps5Fold,
            gps5Sample_emit skip s cnt item T a b c d e t hz hns hU hS
              ha hb hc hd he,
            if_pos hfix, gps5NewPoints, if_neg hz, if_neg hns]
          conv_rhs => rw [List.append_cons]
          exact ih hU hS
        · simp only [gps5Fold,
            gps5Sample_emit skip s cnt item T a b c d e t hz hns hU hS
              ha hb hc hd he,
            if_neg hfix, gps5NewPoints, if_neg hz, if_neg hns]
          conv_rhs => rw [List.append_cons]
          exact ih hU hS

/-- Timestamps of the reference emission list: in order, the emitted points
of one record carry offsets `sample_count`, `sample_count + 1`, ... of a
1/18-second step from the anchor. -/
theorem gps5NewPoints_times {fix : ℤ} {skip : Bool} {T a b c d : ℚ} :
    ∀ (items : List GPSData) (cnt : ℕ),
      (gps5NewPoints fix skip T a b c d cnt items).map GPSPoint.time =
        (List.range' cnt (gps5NewPoints fix skip T a b c d cnt items).length).map
          (fun n => T + (n : ℚ) * (1 / 18)) := by
  intro items
  induction items with
  | nil => intro cnt; rfl
  | cons item rest ih =>
    intro cnt
    by_cases hz : item.lon = item.lat ∧ item.lat = item.alt ∧ item.alt = 0
    · simp only [gps5NewPoints, if_pos hz]
      exact ih cnt
    · by_cases hns : fix = 0 ∧ skip
      · simp only [gps5NewPoints, if_neg hz, if_pos hns]
        exact ih cnt
      · simp only [gps5NewPoints, if_neg hz, if_neg hns, List.map_cons,
          List.length_cons, List.range'_succ]
        rw [ih (cnt + 1)]
        simp

/-! ### Lemmas about the main loop -/

theorem karmaMake_error {xs : List ℚ} {e : Err}
    (h : KARMAGPSData.make xs = .error e) : e = .makeArity := by
  rcases xs with _ | ⟨a, _ | ⟨b, _ | ⟨c, _ | ⟨d, _ | ⟨e1, t⟩⟩⟩⟩⟩ <;>
    simp [KARMAGPSData.make] at h <;> exact h.symm

theorem systMake_error {xs : List ℚ} {e : Err}
    (h : SYSTData.make xs = .error e) : e = .makeArity := by
  rcases xs with _ | ⟨a, _ | ⟨b, _ | ⟨c, t⟩⟩⟩ <;>
    simp [SYSTData.make] at h <;> exact h.symm

/-- Shape of the `SYST` transition: it either leaves the state unchanged,
replaces only the `SYST` slot, or raises an error other than the
missing-anchor one. -/
theorem step_SYST_inv (skip : Bool) (s : BState) (d : SYSTData) :
    step skip s (.SYST d) = .ok s ∨
    (∃ sy, step skip s (.SYST d) = .ok { s with SYST := sy }) ∨
    (∃ e, e ≠ Err.noneTimestamp ∧ step skip s (.SYST d) = .error e) := by
  cases hS : s.SCAL with
  | scalar q =>
    exact Or.inr (Or.inr ⟨.listOfScalar, by decide,
      by simp only [step, hS, ScalVal.toList]⟩)
  | vec l =>
    cases hd : pyZipDiv [d.seconds, d.miliseconds] l with
    | error e1 =>
      exact Or.inr (Or.inr ⟨e1, by rw [pyZipDiv_error _ _ hd]; decide,
        by simp only [step, hS, ScalVal.toList, hd]⟩)
    | ok dl =>
      cases dl with
      | nil =>
        exact Or.inr (Or.inr ⟨.indexOut, by decide,
          by simp only [step, hS, ScalVal.toList, hd]⟩)
      | cons a rest =>
        by_cases ha : a = 0
        · refine Or.inl ?_
          simp only [step, hS, ScalVal.toList, hd, if_neg (not_not_intro ha)]
        · cases rest with
          | nil =>
            exact Or.inr (Or.inr ⟨.indexOut, by decide,
              by simp only [step, hS, ScalVal.toList, hd, if_pos ha]⟩)
          | cons b rest2 =>
            by_cases hb : b = 0
            · refine Or.inl ?_
              simp only [step, hS, ScalVal.toList, hd, if_pos ha,
                if_neg (not_not_intro hb)]
            · cases hm : SYSTData.make (a :: b :: rest2) with
              | error e2 =>
                exact Or.inr (Or.inr ⟨e2,
                  by rw [systMake_error hm]; decide,
                  by simp only [step, hS, ScalVal.toList, hd, if_pos ha,
                    if_pos hb, hm]⟩)
              | ok sy =>
                exact Or.inr (Or.inl ⟨sy,
                  by simp only [step, hS, ScalVal.toList, hd, if_pos ha,
                    if_pos hb, hm]⟩)

/-- Shape of the `GPRI` transition: it either changes only the stats and the
trace (the legacy path never manages to append a point), or raises an error
other than the missing-anchor one. -/
theorem step_GPRI_inv (skip : Bool) (s : BState) (d : KARMAGPSData) :
    (∃ s1, step skip s (.GPRI d) = .ok s1 ∧ s1.GPSU = s.GPSU ∧
      s1.GPSFIX = s.GPSFIX ∧ s1.SCAL = s.SCAL ∧ s1.SYST = s.SYST ∧
      s1.TSMP = s.TSMP ∧ s1.DVNM = s.DVNM ∧ s1.start_time = s.start_time ∧
      s1.points = s.points) ∨
    (∃ e, e ≠ Err.noneTimestamp ∧ step skip s (.GPRI d) = .error e) := by
  by_cases hz : d.lon = d.lat ∧ d.lat = d.alt ∧ d.alt = 0
  · exact Or.inl ⟨{ s with
        stats := { s.stats with empty := s.stats.empty + 1 },
        trace := s.trace ++ [.warnEmpty] },
      by simp only [step, if_pos hz], rfl, rfl, rfl, rfl, rfl, rfl, rfl, rfl⟩
  · by_cases hns : s.GPSFIX = 0 ∧ skip
    · obtain ⟨hfix, hsk⟩ := hns
      subst hsk
      refine Or.inl ⟨{ s with
          stats := { s.stats with
                      badfix := s.stats.badfix + 1,
                      badfixskip := s.stats.badfixskip + 1 },
          trace := s.trace ++ [.warnBadfix] },
        ?_, rfl, rfl, rfl, rfl, rfl, rfl, rfl, rfl⟩
      simp only [step, if_neg hz, if_pos hfix]
      simp [hfix]
    · cases hS : s.SCAL with
      | scalar q =>
        refine Or.inr ⟨.listOfScalar, by decide, ?_⟩
        by_cases hfix : s.GPSFIX = 0
        · simp only [step, if_neg hz, if_neg hns, if_pos hfix, hS,
            ScalVal.toList]
        · simp only [step, if_neg hz, if_neg hns, if_neg hfix, hS,
            ScalVal.toList]
      | vec l =>
        cases hd : pyZipDiv d.fields l with
        | error e1 =>
          refine Or.inr ⟨e1, by rw [pyZipDiv_error _ _ hd]; decide, ?_⟩
          by_cases hfix : s.GPSFIX = 0
          · simp only [step, if_neg hz, if_neg hns, if_pos hfix, hS,
              ScalVal.toList, hd]
          · simp only [step, if_neg hz, if_neg hns, if_neg hfix, hS,
              ScalVal.toList, hd]
        | ok dl =>
          cases hm : KARMAGPSData.make dl with
          | error e2 =>
            refine Or.inr ⟨e2, by rw [karmaMake_error hm]; decide, ?_⟩
            by_cases hfix : s.GPSFIX = 0
            · simp only [step, if_neg hz, if_neg hns, if_pos hfix, hS,
                ScalVal.toList, hd, hm]
            · simp only [step, if_neg hz, if_neg hns, if_neg hfix, hS,
                ScalVal.toList, hd, hm]
          | ok g =>
            by_cases hsy : s.SYST.seconds ≠ 0 ∧ s.SYST.miliseconds ≠ 0
            · refine Or.inr ⟨.datetimeAttr, by decide, ?_⟩
              by_cases hfix : s.GPSFIX = 0
              · simp only [step, if_neg hz, if_neg hns, if_pos hfix, hS,
                  ScalVal.toList, hd, hm, if_pos hsy]
              · simp only [step, if_neg hz, if_neg hns, if_neg hfix, hS,
                  ScalVal.toList, hd, hm, if_pos hsy]
            · refine Or.inl ⟨if s.GPSFIX = 0 then
                  { s with stats :=
                    { s.stats with badfix := s.stats.badfix + 1 } }
                else s, ?_, ?_, ?_, ?_, ?_, ?_, ?_, ?_, ?_⟩
              · by_cases hfix : s.GPSFIX = 0
                · simp only [step, if_neg hz, if_neg hns, if_pos hfix, hS,
                    ScalVal.toList, hd, hm, if_neg hsy]
                · simp only [step, if_neg hz, if_neg hns, if_neg hfix, hS,
                    ScalVal.toList, hd, hm, if_neg hsy]
              all_goals (split <;> first | rfl | exact hS)

/-- If a single transition raises the missing-anchor error, the anchor was
unset and the record was a `GPS5` record with an accepted sample. -/
theorem step_noneTs_inv {skip : Bool} {s : BState} {r : Rec}
    (h : step skip s r = .error .noneTimestamp) :
    s.GPSU = none ∧ recAccepts skip s r := by
  cases r
  case GPS5 items =>
    simp only [step] at h
    obtain ⟨hnone, item, hmem, hcond⟩ := gps5Fold_noneTs_inv h
    exact ⟨hnone, ⟨item, hmem, hcond⟩⟩
  case SYST d =>
    rcases step_SYST_inv skip s d with h1 | ⟨sy, h1⟩ | ⟨e, hne, h1⟩
    · exact absurd (h1.symm.trans h) (by simp)
    · exact absurd (h1.symm.trans h) (by simp)
    · exact absurd (show e = .noneTimestamp by simpa using h1.symm.trans h) hne
  case GPRI d =>
    rcases step_GPRI_inv skip s d with ⟨s1, h1, -⟩ | ⟨e, hne, h1⟩
    · exact absurd (h1.symm.trans h) (by simp)
    · exact absurd (show e = .noneTimestamp by simpa using h1.symm.trans h) hne
  all_goals simp [step] at h

/-- A successful transition from a state with a set anchor leaves the anchor
set. -/
theorem step_ok_anchor {skip : Bool} {s : BState} {r : Rec} {s1 : BState}
    {u : ℚ} (h : step skip s r = .ok s1) (hU : s.GPSU = some u) :
    ∃ v, s1.GPSU = some v := by
  cases r
  case GPSU t =>
    simp only [step, Except.ok.injEq] at h
    subst h
    exact ⟨t, rfl⟩
  case GPS5 items =>
    simp only [step] at h
    exact ⟨u, (gps5Fold_ok_inv h).1.trans hU⟩
  case SYST d =>
    rcases step_SYST_inv skip s d with h1 | ⟨sy, h1⟩ | ⟨e, -, h1⟩
    · have h2 : s = s1 := by simpa using h1.symm.trans h
      subst h2
      exact ⟨u, hU⟩
    · have h2 : { s with SYST := sy } = s1 := by simpa using h1.symm.trans h
      subst h2
      exact ⟨u, hU⟩
    · exact absurd (h1.symm.trans h) (by simp)
  case GPRI d =>
    rcases step_GPRI_inv skip s d with ⟨s2, h1, hGPSU, -⟩ | ⟨e, -, h1⟩
    · have h2 : s2 = s1 := by simpa using h1.symm.trans h
      subst h2
      exact ⟨u, hGPSU.trans hU⟩
    · exact absurd (h1.symm.trans h) (by simp)
  all_goals
    simp only [step, Except.ok.injEq] at h
    subst h
    exact ⟨u, hU⟩

/-- Once the anchor is set, the main loop can never raise the missing-anchor
error. -/
theorem runFrom_ne_noneTs {skip : Bool} {l : List Rec} {s : BState} {u : ℚ}
    (hU : s.GPSU = some u) : runFrom skip s l ≠ .error .noneTimestamp := by
  induction l generalizing s u with
  | nil => simp [runFrom]
  | cons r rest ih =>
    intro h
    simp only [runFrom] at h
    cases hst : step skip s r with
    | error e =>
      simp only [hst, Except.error.injEq] at h
      subst h
      have := (step_noneTs_inv hst).1
      rw [hU] at this
      exact Option.noConfusion this
    | ok s2 =>
      simp only [hst] at h
      obtain ⟨v, hv⟩ := step_ok_anchor hst hU
      exact ih hv h

/-- If the main loop raises the missing-anchor error, there is a prefix the
run completes successfully whose state still has no anchor, followed by a
`GPS5` record with an accepted sample. -/
theorem runFrom_noneTs_inv {skip : Bool} {l : List Rec} {s : BState}
    (h : runFrom skip s l = .error .noneTimestamp) :
    ∃ i, ∃ hi : i < l.length, ∃ s2,
      runFrom skip s (l.take i) = .ok s2 ∧ s2.GPSU = none ∧
        recAccepts skip s2 (l.get ⟨i, hi⟩) := by
  induction l generalizing s with
  | nil => simp [runFrom] at h
  | cons r rest ih =>
    simp only [runFrom] at h
    cases hst : step skip s r with
    | error e =>
      simp only [hst, Except.error.injEq] at h
      subst h
      obtain ⟨hnone, hacc⟩ := step_noneTs_inv hst
      exact ⟨0, by simp, s, rfl, hnone, hacc⟩
    | ok s2 =>
      simp only [hst] at h
      obtain ⟨i, hi, s3, hrun, hnone, hacc⟩ := ih h
      refine ⟨i + 1, by simpa using Nat.succ_lt_succ hi, s3, ?_, hnone, ?_⟩
      · rw [List.take_succ_cons]
        simp only [runFrom, hst]
        exact hrun
      · simpa using hacc

/-- Running the loop over a concatenation is running it over the pieces in
sequence. -/
theorem runFrom_append (skip : Bool) :
    ∀ (l1 l2 : List Rec) (s : BState),
      runFrom skip s (l1 ++ l2) =
        match runFrom skip s l1 with
        | .error e => .error e
        | .ok s1 => runFrom skip s1 l2 := by
  intro l1
  induction l1 with
  | nil => intro l2 s; rfl
  | cons r rest ih =>
    intro l2 s
    simp only [List.cons_append, runFrom]
    cases hst : step skip s r with
    | error e => rfl
    | ok s1 => exact ih l2 s1

/-! ### Lemmas showing the `TSMP` slot is write-only -/

theorem stripT_setT (s : BState) (x : ℤ) :
    stripT { s with TSMP := x } = stripT s := rfl

theorem eq_setT_of_stripT {s1 s2 : BState} (h : stripT s1 = stripT s2) :
    s1 = { s2 with TSMP := s1.TSMP } := by
  have hp := congrArg BState.points h
  have hst := congrArg BState.start_time h
  have hsc := congrArg BState.SCAL h
  have hgu := congrArg BState.GPSU h
  have hsy := congrArg BState.SYST h
  have hstats := congrArg BState.stats h
  have hfx := congrArg BState.GPSFIX h
  have hdv := congrArg BState.DVNM h
  have htr := congrArg BState.trace h
  cases s1
  cases s2
  simp only [stripT] at hp hst hsc hgu hsy hstats hfx hdv htr
  subst hp
  subst hst
  subst hsc
  subst hgu
  subst hsy
  subst hstats
  subst hfx
  subst hdv
  subst htr
  rfl

theorem gps5Sample_setT (skip : Bool) (s : BState) (x : ℤ) (cnt : ℕ)
    (item : GPSData) :
    gps5Sample skip { s with TSMP := x } cnt item =
      (gps5Sample skip s cnt item).map fun p => ({ p.1 with TSMP := x }, p.2) := by
  by_cases hfix : s.GPSFIX = 0
  · simp only [gps5Sample, if_pos hfix]
    repeat' split
    all_goals simp_all [Except.map]
  · simp only [gps5Sample, if_neg hfix]
    repeat' split
    all_goals simp_all [Except.map]

theorem gps5Fold_setT (skip : Bool) (x : ℤ) :
    ∀ (items : List GPSData) (s : BState) (cnt : ℕ),
      gps5Fold skip { s with TSMP := x } cnt items =
        (gps5Fold skip s cnt items).map fun u => { u with TSMP := x } := by
  intro items
  induction items with
  | nil => intro s cnt; simp [gps5Fold, Except.map]
  | cons item rest ih =>
    intro s cnt
    simp only [gps5Fold, gps5Sample_setT]
    cases hs : gps5Sample skip s cnt item with
    | error e => simp [Except.map]
    | ok p =>
      obtain ⟨s2, c2⟩ := p
      simp only [Except.map]
      exact ih s2 c2

/-- A non-`TSMP` transition neither reads nor writes the `TSMP` slot. -/
theorem step_setT (skip : Bool) (s : BState) (x : ℤ) :
    ∀ {r : Rec}, isTSMPRec r = false →
      step skip { s with TSMP := x } r =
        (step skip s r).map fun u => { u with TSMP := x } := by
  intro r hr
  cases r
  case TSMP n => simp [isTSMPRec] at hr
  case GPS5 items =>
    simp only [step]
    exact gps5Fold_setT skip x items s 0
  case GPRI d =>
    by_cases hfix : s.GPSFIX = 0
    · simp only [step, if_pos hfix]
      repeat' split
      all_goals simp_all [Except.map]
    · simp only [step, if_neg hfix]
      repeat' split
      all_goals simp_all [Except.map]
  all_goals
    simp only [step]
    repeat' split
    all_goals simp_all [Except.map]

/-- Erasing the `TSMP` records changes nothing observable: the runs agree on
every state slot except `TSMP` itself. -/
theorem runFrom_stripT (skip : Bool) :
    ∀ (l : List Rec) (s1 s2 : BState), stripT s1 = stripT s2 →
      (runFrom skip s1 (l.filter fun r => !isTSMPRec r)).map stripT =
        (runFrom skip s2 l).map stripT := by
  intro l
  induction l with
  | nil =>
    intro s1 s2 h
    simpa [runFrom, Except.map] using h
  | cons r rest ih =>
    intro s1 s2 h
    by_cases hr : isTSMPRec r = true
    · cases r <;> simp [isTSMPRec] at hr
      rename_i n
      rw [show (Rec.TSMP n :: rest).filter (fun r => !isTSMPRec r) =
          rest.filter fun r => !isTSMPRec r by simp [isTSMPRec]]
      have hstep : runFrom skip s2 (Rec.TSMP n :: rest) =
          runFrom skip { s2 with TSMP := if s2.TSMP = 0 then n else n - s2.TSMP }
            rest := by
        simp only [runFrom, step]
      rw [hstep]
      exact ih s1 _ (h.trans (stripT_setT s2 _).symm)
    · rw [show (r :: rest).filter (fun r => !isTSMPRec r) =
          r :: rest.filter fun r => !isTSMPRec r by
        simp [Bool.not_eq_true] at hr
        simp [hr]]
      have h12 : s1 = { s2 with TSMP := s1.TSMP } := eq_setT_of_stripT h
      simp only [runFrom]
      rw [h12, step_setT skip s2 s1.TSMP (Bool.not_eq_true _ ▸ hr)]
      cases hst : step skip s2 r with
      | error e => simp [Except.map]
      | ok u2 =>
        simp only [Except.map]
        exact ih { u2 with TSMP := s1.TSMP } u2 (stripT_setT u2 _)

/-- Erasing the `TSMP` records from the input leaves the whole observable
result of `BuildGPSPoints` (points, start time, device, stats, printed
output) unchanged. -/
theorem buildRun_filter_TSMP (data : List Rec) (skip : Bool) :
    (buildRun (data.filter fun r => !isTSMPRec r) skip).map stripT =
      (buildRun data skip).map stripT := by
  have key := runFrom_stripT skip data initState initState rfl
  cases h1 : runFrom skip initState (data.filter fun r => !isTSMPRec r) with
  | error e =>
    cases h2 : runFrom skip initState data with
    | error e2 =>
      have he : e = e2 := by
        rw [h1, h2] at key
        simpa [Except.map] using key
      subst he
      simp only [buildRun, h1, h2]
    | ok s2 =>
      rw [h1, h2] at key
      simp [Except.map] at key
  | ok s1 =>
    cases h2 : runFrom skip initState data with
    | error e2 =>
      rw [h1, h2] at key
      simp [Except.map] at key
    | ok s2 =>
      have hstrip : stripT s1 = stripT s2 := by
        rw [h1, h2] at key
        simpa [Except.map] using key
      have h12 := eq_setT_of_stripT hstrip
      simp only [buildRun, h1, h2, Except.map]
      rw [h12]
      rfl

/-! ### Lemmas for the no-point-record pass -/

/-- A pass over records that are neither `GPS5` nor `GPRI` succeeds and
appends no points, as long as every `SCAL` record (and the incoming scale
state) carries a vector of at least two nonzero components. -/
theorem runFrom_no_points (skip : Bool) :
    ∀ (l : List Rec) (s : BState),
      (∀ r ∈ l, isPointRec r = false) → (∀ r ∈ l, scalWF r = true) →
      (∃ ls, s.SCAL = .vec ls ∧ 2 ≤ ls.length ∧ ∀ q ∈ ls, q ≠ 0) →
      ∃ s1, runFrom skip s l = .ok s1 ∧ s1.points = s.points := by
  intro l
  induction l with
  | nil => intro s _ _ _; exact ⟨s, rfl, rfl⟩
  | cons r rest ih =>
    intro s hp hw hscal
    have hpr : isPointRec r = false := hp r (List.mem_cons_self r rest)
    have hwr : scalWF r = true := hw r (List.mem_cons_self r rest)
    have hp2 : ∀ x ∈ rest, isPointRec x = false :=
      fun x hx => hp x (List.mem_cons_of_mem _ hx)
    have hw2 : ∀ x ∈ rest, scalWF x = true :=
      fun x hx => hw x (List.mem_cons_of_mem _ hx)
    cases r
    case GPS5 items => simp [isPointRec] at hpr
    case GPRI d => simp [isPointRec] at hpr
    case SCAL v =>
      cases v with
      | scalar q => simp [scalWF] at hwr
      | vec ls =>
        have hcond : 2 ≤ ls.length ∧ ∀ q ∈ ls, q ≠ 0 := by
          simpa [scalWF] using hwr
        obtain ⟨s1, hrun, hpts⟩ :=
          ih { s with SCAL := .vec ls } hp2 hw2 ⟨ls, rfl, hcond.1, hcond.2⟩
        exact ⟨s1, by simp only [runFrom, step]; exact hrun, hpts⟩
    case SYST d =>
      obtain ⟨ls, hS, hlen, hnz⟩ := hscal
      rcases ls with _ | ⟨q0, _ | ⟨q1, tl⟩⟩
      · simp at hlen
      · simp at hlen
      · have hq0 : q0 ≠ 0 := hnz q0 (by simp)
        have hq1 : q1 ≠ 0 := hnz q1 (by simp)
        have hdl : pyZipDiv [d.seconds, d.miliseconds] (q0 :: q1 :: tl) =
            .ok [d.seconds / q0, d.miliseconds / q1] := by
          simp only [pyZipDiv, if_neg hq0, if_neg hq1]
        by_cases ha : d.seconds / q0 = 0
        · obtain ⟨s1, hrun, hpts⟩ := ih s hp2 hw2 ⟨_, hS, hlen, hnz⟩
          refine ⟨s1, ?_, hpts⟩
          simp only [runFrom, step, hS, ScalVal.toList, hdl,
            if_neg (not_not_intro ha)]
          exact hrun
        · by_cases hb : d.miliseconds / q1 = 0
          · obtain ⟨s1, hrun, hpts⟩ := ih s hp2 hw2 ⟨_, hS, hlen, hnz⟩
            refine ⟨s1, ?_, hpts⟩
            simp only [runFrom, step, hS, ScalVal.toList, hdl, if_pos ha,
              if_neg (not_not_intro hb)]
            exact hrun
          · obtain ⟨s1, hrun, hpts⟩ :=
              ih { s with SYST := ⟨d.seconds / q0, d.miliseconds / q1⟩ }
                hp2 hw2 ⟨_, hS, hlen, hnz⟩
            refine ⟨s1, ?_, hpts⟩
            simp only [runFrom, step, hS, ScalVal.toList, hdl, if_pos ha,
              if_pos hb, SYSTData.make]
            rw [← hS]
            exact hrun
    case DVNM name =>
      obtain ⟨s1, hrun, hpts⟩ := ih { s with DVNM := name } hp2 hw2 hscal
      exact ⟨s1, by simp only [runFrom, step]; exact hrun, hpts⟩
    case GPSU t =>
      obtain ⟨s1, hrun, hpts⟩ := ih { s with
          GPSU := some t,
          start_time :=
            match s.start_time with | none => some t | some u => some u }
        hp2 hw2 hscal
      exact ⟨s1, by simp only [runFrom, step]; exact hrun, hpts⟩
    case GPSF f =>
      obtain ⟨s1, hrun, hpts⟩ := ih { s with
          GPSFIX := f,
          trace := if f = s.GPSFIX then s.trace
            else s.trace ++ [.gpsfixChange f] } hp2 hw2 hscal
      exact ⟨s1, by simp only [runFrom, step]; exact hrun, hpts⟩
    case TSMP n =>
      obtain ⟨s1, hrun, hpts⟩ :=
        ih { s with TSMP := if s.TSMP = 0 then n else n - s.TSMP } hp2 hw2 hscal
      exact ⟨s1, by simp only [runFrom, step]; exact hrun, hpts⟩
    case CORI items =>
      obtain ⟨s1, hrun, hpts⟩ := ih s hp2 hw2 hscal
      exact ⟨s1, by simp only [runFrom, step]; exact hrun, hpts⟩
    case GRAV items =>
      obtain ⟨s1, hrun, hpts⟩ := ih s hp2 hw2 hscal
      exact ⟨s1, by simp only [runFrom, step]; exact hrun, hpts⟩
    case ACCL items =>
      obtain ⟨s1, hrun, hpts⟩ := ih s hp2 hw2 hscal
      exact ⟨s1, by simp only [runFrom, step]; exact hrun, hpts⟩
    case other tag =>
      obtain ⟨s1, hrun, hpts⟩ := ih s hp2 hw2 hscal
      exact ⟨s1, by simp only [runFrom, step]; exact hrun, hpts⟩

/-! ### Lemmas for the single-channel extractors -/

theorem GetCORIDataGo_spec :
    ∀ (data : List Rec) (q : ℚ), q ≠ 0 →
      (∀ r ∈ data, scalScalarWF r = true) →
      GetCORIDataGo (.scalar q) data = .ok (channelRowsSpec coriItems q data) := by
  intro data
  induction data with
  | nil => intro q hq hw; rfl
  | cons r rest ih =>
    intro q hq hw
    have hwr : scalScalarWF r = true := hw r (List.mem_cons_self r rest)
    have hw2 : ∀ x ∈ rest, scalScalarWF x = true :=
      fun x hx => hw x (List.mem_cons_of_mem _ hx)
    cases r
    case SCAL v =>
      cases v with
      | scalar q2 =>
        have hq2 : q2 ≠ 0 := by simpa [scalScalarWF] using hwr
        simp only [GetCORIDataGo, channelRowsSpec]
        exact ih q2 hq2 hw2
      | vec l => simp [scalScalarWF] at hwr
    case CORI items =>
      simp only [GetCORIDataGo, scaleItems_ok q hq, ih q hq hw2,
        channelRowsSpec, coriItems]
    all_goals
      simp only [GetCORIDataGo, channelRowsSpec, coriItems]
      exact ih q hq hw2

theorem GetGRAVDataGo_spec :
    ∀ (data : List Rec) (q : ℚ), q ≠ 0 →
      (∀ r ∈ data, scalScalarWF r = true) →
      GetGRAVDataGo (.scalar q) data = .ok (channelRowsSpec gravItems q data) := by
  intro data
  induction data with
  | nil => intro q hq hw; rfl
  | cons r rest ih =>
    intro q hq hw
    have hwr : scalScalarWF r = true := hw r (List.mem_cons_self r rest)
    have hw2 : ∀ x ∈ rest, scalScalarWF x = true :=
      fun x hx => hw x (List.mem_cons_of_mem _ hx)
    cases r
    case SCAL v =>
      cases v with
      | scalar q2 =>
        have hq2 : q2 ≠ 0 := by simpa [scalScalarWF] using hwr
        simp only [GetGRAVDataGo, channelRowsSpec]
        exact ih q2 hq2 hw2
      | vec l => simp [scalScalarWF] at hwr
    case GRAV items =>
      simp only [GetGRAVDataGo, scaleItems_ok q hq, ih q hq hw2,
        channelRowsSpec, gravItems]
    all_goals
      simp only [GetGRAVDataGo, channelRowsSpec, gravItems]
      exact ih q hq hw2

theorem GetACCLDataGo_spec :
    ∀ (data : List Rec) (q : ℚ), q ≠ 0 →
      (∀ r ∈ data, scalScalarWF r = true) →
      GetACCLDataGo (.scalar q) data = .ok (channelRowsSpec acclItems q data) := by
  intro data
  induction data with
  | nil => intro q hq hw; rfl
  | cons r rest ih =>
    intro q hq hw
    have hwr : scalScalarWF r = true := hw r (List.mem_cons_self r rest)
    have hw2 : ∀ x ∈ rest, scalScalarWF x = true :=
      fun x hx => hw x (List.mem_cons_of_mem _ hx)
    cases r
    case SCAL v =>
      cases v with
      | scalar q2 =>
        have hq2 : q2 ≠ 0 := by simpa [scalScalarWF] using hwr
        simp only [GetACCLDataGo, channelRowsSpec]
        exact ih q2 hq2 hw2
      | vec l => simp [scalScalarWF] at hwr
    case ACCL items =>
      simp only [GetACCLDataGo, scaleItems_ok q hq, ih q hq hw2,
        channelRowsSpec, acclItems]
    all_goals
      simp only [GetACCLDataGo, channelRowsSpec, acclItems]
      exact ih q hq hw2

theorem isGPSURec_exists {r : Rec} (h : isGPSURec r = true) :
    ∃ u, r = .GPSU u := by
  cases r <;> simp_all [isGPSURec]

/-! ### Claim theorems -/

/-- C1 counterexample: with the claim's own 3-component scale vector
`(10,10,10)` and the 5-field raw tuple `(100,200,300,40,50)` (fix quality 3,
anchor set), `BuildGPSPoints` does not emit a `(10,20,30)` point: Python's
`zip` truncates the scaled list to three values and `GPSData._make` then
raises, aborting the whole pass with the arity error. -/
theorem C1_short_scale_cex :
    BuildGPSPoints [.SCAL (.vec [10, 10, 10]), .GPSF 3, .GPSU 0,
      .GPS5 [⟨100, 200, 300, 40, 50⟩]] false = .error .makeArity := by
  with_unfolding_all decide

/-- C1 (amended): with a 5-component scale vector `(10,10,10,10,10)` the
emitted point has lat/lon/alt `(10,20,30)` and scaled speed `4`; in general
every field of an accepted `GPS5` tuple is divided by the matching component
of the first five scale components; and a scale vector with fewer than five
nonzero components makes the pass abort with a raised tuple-arity error — an
error, not a silent truncation of fields, but also not an emitted point. -/
theorem C1_scale_division :
    (BuildGPSPoints [.SCAL (.vec [10, 10, 10, 10, 10]), .GPSF 3, .GPSU 0,
        .GPS5 [⟨100, 200, 300, 40, 50⟩]] false =
      .ok ([⟨10, 20, 30, 0, 4⟩], some 0, "Unknown")) ∧
    (∀ (skip : Bool) (s : BState) (cnt : ℕ) (item : GPSData)
        (T a b c d e : ℚ) (t : List ℚ),
      ¬(item.lon = item.lat ∧ item.lat = item.alt ∧ item.alt = 0) →
      s.GPSFIX ≠ 0 → s.GPSU = some T →
      s.SCAL = .vec (a :: b :: c :: d :: e :: t) →
      a ≠ 0 → b ≠ 0 → c ≠ 0 → d ≠ 0 → e ≠ 0 →
      gps5Sample skip s cnt item =
        .ok ({ s with
                points := s.points ++
                  [⟨item.lat / a, item.lon / b, item.alt / c,
                    T + (cnt : ℚ) * (1 / 18), item.speed / d⟩],
                stats := { s.stats with ok := s.stats.ok + 1 } }, cnt + 1)) ∧
    (∀ (skip : Bool) (s : BState) (cnt : ℕ) (item : GPSData) (l : List ℚ),
      ¬(item.lon = item.lat ∧ item.lat = item.alt ∧ item.alt = 0) →
      ¬(s.GPSFIX = 0 ∧ skip) →
      s.SCAL = .vec l → l.length < 5 → (∀ q ∈ l, q ≠ 0) →
      gps5Sample skip s cnt item = .error .makeArity) := by
  refine ⟨by with_unfolding_all decide, ?_, ?_⟩
  · intro skip s cnt item T a b c d e t hz hfix hU hS ha hb hc hd he
    rw [gps5Sample_emit skip s cnt item T a b c d e t hz
      (fun hc => hfix hc.1) hU hS ha hb hc hd he]
    simp only [if_neg hfix]
  · intro skip s cnt item l hz hns hS hlen hnz
    exact gps5Sample_arity skip s cnt item l hz hns hS hlen hnz

/-- Witness for C1: the element-wise division and the short-vector abort,
each at a concrete input. -/
theorem C1_scale_division_w :
    gps5Sample false { initState with
        GPSU := some 7,
        SCAL := .vec [10, 10, 10, 10, 10],
        GPSFIX := 3 } 2 ⟨100, 200, 300, 40, 50⟩ =
      .ok ({ { initState with
                GPSU := some 7,
                SCAL := .vec [10, 10, 10, 10, 10],
                GPSFIX := 3 } with
              points := [] ++
                [⟨100 / 10, 200 / 10, 300 / 10, 7 + ((2 : ℕ) : ℚ) * (1 / 18),
                  40 / 10⟩],
              stats := ⟨0 + 1, 0, 0, 0⟩ }, 2 + 1) ∧
    gps5Sample false { initState with SCAL := .vec [10, 10], GPSFIX := 3 } 0
      ⟨100, 200, 300, 40, 50⟩ = .error .makeArity := by
  constructor
  · exact C1_scale_division.2.1 false _ 2 _ 7 10 10 10 10 10 []
      (by decide) (by decide) rfl rfl (by decide) (by decide) (by decide)
      (by decide) (by decide)
  · exact C1_scale_division.2.2 false _ 0 _ [10, 10]
      (by decide) (by decide) rfl (by decide) (by decide)

/-- C2 counterexample: an anchor at 0 followed by a `GPS5` record whose first
sample is all-zero and whose second sample is accepted; the accepted sample
sits at position 1 of the repeat group, so the claim predicts timestamp
`0 + 1/18`, but the code stamps it `0` because `sample_count` only counts
emitted points. -/
theorem C2_repeat_index_cex :
    (BuildGPSPoints [.SCAL (.vec [1, 1, 1, 1, 1]), .GPSF 3, .GPSU 0,
        .GPS5 [⟨0, 0, 0, 0, 0⟩, ⟨100, 200, 300, 40, 50⟩]] false).map
        (fun r => r.1.map GPSPoint.time) = .ok [0] ∧
    (0 : ℚ) ≠ 0 + (1 : ℚ) * (1 / 18) := by
  constructor
  · with_unfolding_all decide
  · with_unfolding_all decide

/-- C2 (amended): for a `GPS5` record processed with anchor `T` and a wide
enough nonzero scale vector, the appended points are `gps5NewPoints`, whose
`k`-th element is stamped `T + k/18` where `k` counts the previously emitted
points of the same record (equal to the position in the repeat group exactly
when no earlier sample of the record was rejected); in particular three
accepted samples get `T`, `T + 1/18`, `T + 2/18` in order. -/
theorem C2_timestamp_rule :
    ∀ (skip : Bool) (s : BState) (items : List GPSData) (T a b c d e : ℚ)
      (t : List ℚ),
      s.GPSU = some T → s.SCAL = .vec (a :: b :: c :: d :: e :: t) →
      a ≠ 0 → b ≠ 0 → c ≠ 0 → d ≠ 0 → e ≠ 0 →
      (step skip s (.GPS5 items)).map BState.points =
        .ok (s.points ++ gps5NewPoints s.GPSFIX skip T a b c d 0 items) ∧
      (gps5NewPoints s.GPSFIX skip T a b c d 0 items).map GPSPoint.time =
        (List.range (gps5NewPoints s.GPSFIX skip T a b c d 0 items).length).map
          (fun n => T + (n : ℚ) * (1 / 18)) := by
  intro skip s items T a b c d e t hU hS ha hb hc hd he
  constructor
  · simp only [step]
    exact gps5Fold_points hU hS ha hb hc hd he
  · rw [List.range_eq_range']
    exact gps5NewPoints_times items 0

set_option maxRecDepth 8000 in
/-- Witness for C2: one `GPSU` anchor at 100 followed by a `GPS5` record with
repeat count 3, all samples accepted: timestamps 100, 100 + 1/18,
100 + 2/18 in order. -/
theorem C2_timestamp_rule_w :
    ((step false { initState with
        GPSU := some 100,
        SCAL := .vec [1, 1, 1, 1, 1],
        GPSFIX := 3 }
        (.GPS5 [⟨1, 2, 3, 4, 5⟩, ⟨6, 7, 8, 9, 10⟩,
          ⟨11, 12, 13, 14, 15⟩])).map BState.points =
      .ok ([] ++ gps5NewPoints 3 false 100 1 1 1 1 0
        [⟨1, 2, 3, 4, 5⟩, ⟨6, 7, 8, 9, 10⟩, ⟨11, 12, 13, 14, 15⟩])) ∧
    (gps5NewPoints 3 false 100 1 1 1 1 0
        [⟨1, 2, 3, 4, 5⟩, ⟨6, 7, 8, 9, 10⟩, ⟨11, 12, 13, 14, 15⟩]).map
      GPSPoint.time = [100, 100 + 1 * (1 / 18), 100 + 2 * (1 / 18)] := by
  have h := C2_timestamp_rule false { initState with
      GPSU := some 100,
      SCAL := .vec [1, 1, 1, 1, 1],
      GPSFIX := 3 }
    [⟨1, 2, 3, 4, 5⟩, ⟨6, 7, 8, 9, 10⟩, ⟨11, 12, 13, 14, 15⟩]
    100 1 1 1 1 1 [] rfl rfl (by decide) (by decide) (by decide) (by decide)
    (by decide)
  refine ⟨h.1, ?_⟩
  rw [h.2]
  with_unfolding_all decide

/-- C3 counterexample: two inputs with different final stats (the second
rejects one empty sample) produce identical return values, so the
acceptance-statistics snapshot is not among the things `BuildGPSPoints`
returns to its caller — the return value is only the
(points, start time, device) triple. -/
theorem C3_stats_not_returned_cex :
    BuildGPSPoints [] false = BuildGPSPoints [.GPS5 [⟨0, 0, 0, 0, 0⟩]] false ∧
    (buildRun [] false).map BState.stats ≠
      (buildRun [.GPS5 [⟨0, 0, 0, 0, 0⟩]] false).map BState.stats := by
  decide

/-- C3 (amended): on every completed pass `BuildGPSPoints` returns exactly
three things — the points, the session start time and the device name — and
the acceptance statistics are not returned but printed: the final line of the
printed output is the stats block carrying all four counters and their
total, regardless of outcome (including a zero-point run). -/
theorem C3_return_and_stats :
    ∀ (data : List Rec) (skip : Bool) (s : BState),
      buildRun data skip = .ok s →
      BuildGPSPoints data skip = .ok (s.points, s.start_time, s.DVNM) ∧
      s.trace.getLast? = some (.statsBlock s.DVNM s.stats.ok s.stats.badfix
        s.stats.badfixskip s.stats.empty
        (s.stats.ok + s.stats.badfix + s.stats.badfixskip + s.stats.empty)) := by
  intro data skip s h
  cases h0 : runFrom skip initState data with
  | error e =>
    simp only [buildRun, h0] at h
    exact absurd h (by simp)
  | ok s0 =>
    have hs : s = { s0 with trace := s0.trace ++
        [.statsBlock s0.DVNM s0.stats.ok s0.stats.badfix s0.stats.badfixskip
          s0.stats.empty (s0.stats.ok + s0.stats.badfix + s0.stats.badfixskip +
            s0.stats.empty)] } := by
      simp only [buildRun, h0, Except.ok.injEq] at h
      exact h.symm
    subst hs
    constructor
    · simp only [BuildGPSPoints, buildRun, h0]
    · exact List.getLast?_concat _

/-- Witness for C3: a run over a single device-name record. -/
theorem C3_return_and_stats_w :
    BuildGPSPoints [.DVNM "HERO5"] false =
      .ok (([] : List GPSPoint), (none : Option ℚ), "HERO5") ∧
    ([.statsBlock "HERO5" 0 0 0 0 0] : List Out).getLast? =
      some (.statsBlock "HERO5" 0 0 0 0 0) := by
  have h := C3_return_and_stats [.DVNM "HERO5"] false
    { initState with
      DVNM := "HERO5",
      trace := [.statsBlock "HERO5" 0 0 0 0 0] } (by decide)
  exact ⟨h.1, h.2⟩

/-- C4: a non-empty `GPS5` sample processed while the fix code is 0 (no
lock): with the skip policy disabled the point IS emitted and `badfix`
increments; with the skip policy enabled the point is NOT emitted and both
`badfix` and `badfixskip` increment. -/
theorem C4_badfix_policy :
    ∀ (s : BState) (cnt : ℕ) (item : GPSData) (T a b c d e : ℚ) (t : List ℚ),
      ¬(item.lon = item.lat ∧ item.lat = item.alt ∧ item.alt = 0) →
      s.GPSFIX = 0 → s.GPSU = some T →
      s.SCAL = .vec (a :: b :: c :: d :: e :: t) →
      a ≠ 0 → b ≠ 0 → c ≠ 0 → d ≠ 0 → e ≠ 0 →
      gps5Sample false s cnt item =
        .ok ({ s with
                points := s.points ++
                  [⟨item.lat / a, item.lon / b, item.alt / c,
                    T + (cnt : ℚ) * (1 / 18), item.speed / d⟩],
                stats := { s.stats with
                            badfix := s.stats.badfix + 1,
                            ok := s.stats.ok + 1 } }, cnt + 1) ∧
      gps5Sample true s cnt item =
        .ok ({ s with
                stats := { s.stats with
                            badfix := s.stats.badfix + 1,
                            badfixskip := s.stats.badfixskip + 1 },
                trace := s.trace ++ [.warnBadfix] }, cnt) := by
  intro s cnt item T a b c d e t hz hfix hU hS ha hb hc hd he
  constructor
  · rw [gps5Sample_emit false s cnt item T a b c d e t hz (by simp) hU hS
      ha hb hc hd he]
    simp only [if_pos hfix]
  · exact gps5Sample_badfixskip s cnt item hz hfix

/-- Witness for C4: both policies at a concrete no-lock sample. -/
theorem C4_badfix_policy_w :
    gps5Sample false { initState with
        GPSU := some 50,
        SCAL := .vec [1, 1, 1, 1, 1] } 0 ⟨100, 200, 300, 40, 50⟩ =
      .ok ({ { initState with
                GPSU := some 50,
                SCAL := .vec [1, 1, 1, 1, 1] } with
              points := [] ++
                [⟨100 / 1, 200 / 1, 300 / 1, 50 + ((0 : ℕ) : ℚ) * (1 / 18),
                  40 / 1⟩],
              stats := ⟨0 + 1, 0 + 1, 0, 0⟩ }, 0 + 1) ∧
    gps5Sample true { initState with
        GPSU := some 50,
        SCAL := .vec [1, 1, 1, 1, 1] } 0 ⟨100, 200, 300, 40, 50⟩ =
      .ok ({ { initState with
                GPSU := some 50,
                SCAL := .vec [1, 1, 1, 1, 1] } with
              stats := ⟨0, 0 + 1, 0 + 1, 0⟩,
              trace := [] ++ [.warnBadfix] }, 0) := by
  have h := C4_badfix_policy { initState with
      GPSU := some 50,
      SCAL := .vec [1, 1, 1, 1, 1] } 0 ⟨100, 200, 300, 40, 50⟩ 50 1 1 1 1 1 []
    (by decide) rfl rfl rfl (by decide) (by decide) (by decide) (by decide)
    (by decide)
  exact ⟨h.1, h.2⟩

/-- C5: the code bug on the legacy path.  A `GPRI` record that passes both
rejection filters while the `SYST` state has nonzero seconds and
milliseconds reaches the emission line, which calls the timestamp
constructor as an attribute of the `datetime` module (`import datetime`) that
does not exist — the pass aborts with an AttributeError instead of emitting
the point the spec describes. -/
theorem C5_gpri_emit_crash :
    BuildGPSPoints [.SCAL (.vec [1, 1, 1, 1]), .SYST ⟨1, 1000⟩, .GPSF 3,
      .GPRI ⟨1, 2, 3, 4⟩] false = .error .datetimeAttr := by
  with_unfolding_all decide

/-- C6: a sample or legacy record whose latitude, longitude and altitude are
all exactly zero is never emitted and increments `empty`, regardless of the
state (hence of the fix quality) and of the skip policy. -/
theorem C6_allzero_rejected :
    ∀ (skip : Bool) (s : BState) (cnt : ℕ) (sp sp3 spk : ℚ),
      gps5Sample skip s cnt ⟨0, 0, 0, sp, sp3⟩ =
        .ok ({ s with
                stats := { s.stats with empty := s.stats.empty + 1 },
                trace := s.trace ++ [.warnEmpty] }, cnt) ∧
      step skip s (.GPRI ⟨0, 0, 0, spk⟩) =
        .ok { s with
               stats := { s.stats with empty := s.stats.empty + 1 },
               trace := s.trace ++ [.warnEmpty] } := by
  intro skip s cnt sp sp3 spk
  refine ⟨gps5Sample_empty skip s cnt _ ⟨rfl, rfl, rfl⟩, ?_⟩
  simp [step]

/-- C7 counterexample: after `TSMP` values 10, 14, 20 the stored state is 16
(20 minus the stored delta 4), not the claimed 6 (20 minus the previous
record's value 14). -/
theorem C7_tsmp_cex :
    (buildRun [.TSMP 10, .TSMP 14, .TSMP 20] false).map BState.TSMP =
      .ok 16 ∧ (16 : ℤ) ≠ 20 - 14 := by
  decide

/-- C7 (amended): a `TSMP` record stores its raw value whenever the stored
state is 0 (so in particular on the first occurrence) and otherwise stores
the new value minus the current stored state — which after the second
occurrence is the previously stored delta, not the previous record's raw
value; and the slot is write-only: erasing all `TSMP` records changes
nothing outside the `TSMP` slot itself (points, start time, device, stats
and printed output included). -/
theorem C7_tsmp_rule :
    (∀ (skip : Bool) (s : BState) (n : ℤ),
      step skip s (.TSMP n) =
        .ok { s with TSMP := if s.TSMP = 0 then n else n - s.TSMP }) ∧
    (∀ (data : List Rec) (skip : Bool),
      (buildRun (data.filter fun r => !isTSMPRec r) skip).map stripT =
        (buildRun data skip).map stripT) :=
  ⟨fun _ _ _ => rfl, fun data skip => buildRun_filter_TSMP data skip⟩

/-- C8: the single-channel extractors return one row per decoded tuple of
their tag, in input order, each component divided by the most recent
preceding `SCAL` value (a neutral 1.0 before any `SCAL`), with no timestamp
computation and no fix-quality or empty-sample filtering — exactly the
reference `channelRowsSpec` — whenever the stream's `SCAL` records are
nonzero scalars as sensor streams carry. -/
theorem C8_channel_extraction :
    ∀ (data : List Rec),
      (∀ r ∈ data, scalScalarWF r = true) →
      GetCORIData data = .ok (channelRowsSpec coriItems 1 data) ∧
      GetGRAVData data = .ok (channelRowsSpec gravItems 1 data) ∧
      GetACCLData data = .ok (channelRowsSpec acclItems 1 data) := by
  intro data hw
  exact ⟨GetCORIDataGo_spec data 1 one_ne_zero hw,
    GetGRAVDataGo_spec data 1 one_ne_zero hw,
    GetACCLDataGo_spec data 1 one_ne_zero hw⟩

/-- Witness for C8: a concrete mixed stream; the `ACCL` rows are the tuples
divided by the preceding scalar 2, with the `GPSF` and `CORI` records
ignored. -/
theorem C8_channel_extraction_w :
    GetACCLData [.SCAL (.scalar 2), .ACCL [[2, 4], [6]], .GPSF 0,
        .CORI [[10]]] =
      .ok (channelRowsSpec acclItems 1 [.SCAL (.scalar 2),
        .ACCL [[2, 4], [6]], .GPSF 0, .CORI [[10]]]) ∧
    channelRowsSpec acclItems 1 [.SCAL (.scalar 2), .ACCL [[2, 4], [6]],
      .GPSF 0, .CORI [[10]]] = [[1, 2], [3]] := by
  refine ⟨(C8_channel_extraction _ ?_).2.2, by with_unfolding_all decide⟩
  decide

/-- C9: a record sequence with no `GPS5` and no `GPRI` records (and
well-formed `SCAL` vectors, which the `SYST` handler indexes) is consumed in
full without an error, yields zero points, and `main_core` surfaces the
zero-point run as the normal EmptyResult outcome rather than a fault. -/
theorem C9_no_point_records :
    ∀ (data : List Rec) (skip : Bool),
      (∀ r ∈ data, isPointRec r = false) →
      (∀ r ∈ data, scalWF r = true) →
      (BuildGPSPoints data skip).map (fun r => r.1) = .ok [] ∧
      main_core_gps data skip = .ok .emptyResult := by
  intro data skip hp hw
  obtain ⟨s1, hrun, hpts⟩ := runFrom_no_points skip data initState
    hp hw ⟨[1, 1, 1], rfl, by decide, by decide⟩
  have hp0 : s1.points = [] := hpts.trans rfl
  constructor
  · simp only [BuildGPSPoints, buildRun, hrun, Except.map, hp0]
  · simp [main_core_gps, BuildGPSPoints, buildRun, hrun, hp0]

/-- Witness for C9: a stream of anchor, fix, scale, legacy clock and sensor
records only. -/
theorem C9_no_point_records_w :
    (BuildGPSPoints [.GPSU 5, .GPSF 3, .SCAL (.vec [2, 3]), .SYST ⟨4, 6⟩,
        .ACCL [[1]], .other "KBAT"] false).map (fun r => r.1) = .ok [] ∧
    main_core_gps [.GPSU 5, .GPSF 3, .SCAL (.vec [2, 3]), .SYST ⟨4, 6⟩,
      .ACCL [[1]], .other "KBAT"] false = .ok .emptyResult :=
  C9_no_point_records _ false (by decide) (by decide)

/-- C10: an accepted `GPS5` sample processed before any `GPSU` record (with a
wide enough nonzero scale vector, so that the arity check passes first)
makes the pass fail while constructing the timestamp — `None + timedelta`
— rather than emit a point; and whenever some `GPSU` record precedes the
first accepted `GPS5` sample, that failure is unreachable for the whole
run. -/
theorem C10_missing_anchor :
    (∀ (skip : Bool) (s : BState) (cnt : ℕ) (item : GPSData) (a b c d e : ℚ)
        (t : List ℚ),
      s.GPSU = none → s.SCAL = .vec (a :: b :: c :: d :: e :: t) →
      a ≠ 0 → b ≠ 0 → c ≠ 0 → d ≠ 0 → e ≠ 0 →
      ¬(item.lon = item.lat ∧ item.lat = item.alt ∧ item.alt = 0) →
      ¬(s.GPSFIX = 0 ∧ skip) →
      gps5Sample skip s cnt item = .error .noneTimestamp) ∧
    (∀ (data : List Rec) (skip : Bool),
      anchorBeforeAccept skip data →
      BuildGPSPoints data skip ≠ .error .noneTimestamp) := by
  constructor
  · intro skip s cnt item a b c d e t hU hS ha hb hc hd he hz hns
    exact gps5Sample_noneTs skip s cnt item a b c d e t hz hns hU hS
      ha hb hc hd he
  · intro data skip hanchor h
    have hrun : runFrom skip initState data = .error .noneTimestamp := by
      cases h0 : runFrom skip initState data with
      | error e =>
        have hB : BuildGPSPoints data skip = .error e := by
          simp only [BuildGPSPoints, buildRun, h0]
        have he : e = .noneTimestamp := by simpa using hB.symm.trans h
        rw [he]
      | ok s0 =>
        have hB : BuildGPSPoints data skip =
            .ok (s0.points, s0.start_time, s0.DVNM) := by
          simp only [BuildGPSPoints, buildRun, h0]
        exact absurd (hB.symm.trans h) (by simp)
    obtain ⟨j, hj, hGPSU, hbefore⟩ := hanchor
    have hsplit := runFrom_append skip (data.take j) (data.drop j)
      initState
    rw [List.take_append_drop] at hsplit
    cases hpre : runFrom skip initState (data.take j) with
    | error e =>
      simp only [hpre] at hsplit
      rw [hrun] at hsplit
      have he : e = .noneTimestamp := by simpa using hsplit.symm
      subst he
      obtain ⟨i, hi, s2, hruni, hnone, hacc⟩ := runFrom_noneTs_inv hpre
      have hi2 : i < j := by
        rw [List.length_take] at hi
        omega
      have htake : (data.take j).take i = data.take i := by
        rw [List.take_take, Nat.min_eq_left hi2.le]
      have hget : (data.take j).get ⟨i, hi⟩ =
          data.get ⟨i, Nat.lt_trans hi2 hj⟩ := by
        simp [List.get_eq_getElem, List.getElem_take]
      rw [htake] at hruni
      rw [hget] at hacc
      exact hbefore i hi2 s2 hruni hacc
    | ok spre =>
      simp only [hpre] at hsplit
      rw [List.drop_eq_getElem_cons hj] at hsplit
      obtain ⟨u, hu⟩ := isGPSURec_exists hGPSU
      rw [List.get_eq_getElem] at hu
      rw [hu] at hsplit
      have hstep : runFrom skip spre (Rec.GPSU u :: data.drop (j + 1)) =
          runFrom skip { spre with
            GPSU := some u,
            start_time := match spre.start_time with
              | none => some u
              | some w => some w } (data.drop (j + 1)) := by
        simp only [runFrom, step]
      rw [hstep, hrun] at hsplit
      exact runFrom_ne_noneTs (u := u) rfl hsplit.symm

/-- Witness for C10: a concrete anchorless accepted sample fails with the
missing-anchor error, and a run whose first record is a `GPSU` can never
fail that way. -/
theorem C10_missing_anchor_w :
    gps5Sample false { initState with
        SCAL := .vec [1, 1, 1, 1, 1],
        GPSFIX := 3 } 0 ⟨100, 200, 300, 40, 50⟩ = .error .noneTimestamp ∧
    BuildGPSPoints [.GPSU 0] false ≠ .error .noneTimestamp := by
  constructor
  · exact C10_missing_anchor.1 false _ 0 _ 1 1 1 1 1 [] rfl rfl (by decide)
      (by decide) (by decide) (by decide) (by decide) (by decide) (by decide)
  · exact C10_missing_anchor.2 [.GPSU 0] false
      ⟨0, by decide, by decide, fun i hi => absurd hi (Nat.not_lt_zero i)⟩

end Gopro2gpx
